import Mathlib

/-!
Verification of the mask-construction core of `kf_filter/util.py`.

The source builds boolean frequency-wavenumber masks out of elementwise
comparisons on xarray `DataArray`s.  We embed the computation shallowly:

* `XVal` models a numpy array (`raw`) or an xarray `DataArray`
  (`dataArray coords vals`); elementwise arithmetic is `XVal.map`.
* The mask builders (`kf_mask`, `wave_mask`, `td_mask`) are embedded
  per spectral bin: a bin is a pair of scalars (wavenumber `k`,
  frequency `f`) and a boolean array becomes a `Prop` at that bin.
  The sequential append-and-assert control flow of each Python function
  is kept: every `if` block of the source is one named block
  definition, and the blocks are chained in source order through the
  `Except String` monad (`assert`/`raise` become `Except.error` with
  the exact message of the source).
* The module `kf_filter.consts` is not part of the sources under
  verification; its contributions (physical constants, numpy
  primitives, the `wave_types` list and the `wave_func` registry) are
  modelled from the spec as parameters (`PhysEnv`, `wave_types`, an
  abstract `wave_func` argument).

Everything is generic over a `LinearOrderedField` so that concrete
evaluations can be carried out over `ℚ` while the square-root formulas
are read over `ℝ`.
-/

namespace KfFilter

/-- Model of a numpy / xarray value: either a raw numpy array of
values (unlabeled) or an xarray `DataArray` carrying coordinate labels
alongside its values. -/
inductive XVal (α : Type) where
  | raw (vals : List α)
  | dataArray (coords : List α) (vals : List α)
deriving DecidableEq

/-- The values stored in an `XVal`. -/
def XVal.vals {α : Type} : XVal α → List α
  | .raw v => v
  | .dataArray _ v => v

/-- Whether the value carries coordinate labels (is an xarray
`DataArray` rather than a raw numpy array). -/
def XVal.isLabeled {α : Type} : XVal α → Bool
  | .raw _ => false
  | .dataArray _ _ => true

/-- Elementwise arithmetic on an array: numpy keeps a raw array raw,
xarray keeps the coordinate labels of a `DataArray`. -/
def XVal.map {α : Type} (fn : α → α) : XVal α → XVal α
  | .raw v => .raw (v.map fn)
  | .dataArray c v => .dataArray c (v.map fn)

/-- Embeds the body of `_wrap_to_xarray` for one argument: a raw array
is promoted to a `DataArray` indexed by its own values
(`xr.DataArray(x, coords=dict(x=x))`); a `DataArray` is returned
unchanged. -/
def wrapOne {α : Type} : XVal α → XVal α
  | .raw v => .dataArray v v
  | .dataArray c v => .dataArray c v

/-- `_wrap_to_xarray(wavenumber, frequency)` from `util.py`
(lines 135-146): wraps both inputs to labeled form. -/
def _wrap_to_xarray {α : Type} (wavenumber frequency : XVal α) : XVal α × XVal α :=
  (wrapOne wavenumber, wrapOne frequency)

/-- Modelled from the spec: the surrounding module `kf_filter.consts`
(not among the sources) supplies the physical constants `g`,
`radius_earth` and `beta`; numpy supplies `np.pi` and `np.sqrt`.  All
are collected in one abstract environment so the development stays
generic over the scalar field; over `ℝ` the intended instantiation is
`⟨g, radius_earth, beta, Real.pi, Real.sqrt⟩`. -/
structure PhysEnv (α : Type) where
  g : α
  radius_earth : α
  beta : α
  pi : α
  sqrt : α → α

/-- Per-bin kernel of `_nondim_k_omega` for the wavenumber
(`util.py` line 126): `wavenumber / radius_earth * np.sqrt(c / beta)`
with `c = np.sqrt(g * h)`. -/
def nondimK {α : Type} [LinearOrderedField α] (env : PhysEnv α) (w h : α) : α :=
  w / env.radius_earth * env.sqrt (env.sqrt (env.g * h) / env.beta)

/-- Per-bin kernel of `_nondim_k_omega` for the frequency
(`util.py` line 130): `frequency * 2 * np.pi / (24 * 3600) / np.sqrt(beta * c)`
with `c = np.sqrt(g * h)`. -/
def nondimOmega {α : Type} [LinearOrderedField α] (env : PhysEnv α) (f h : α) : α :=
  f * 2 * env.pi / (24 * 3600) / env.sqrt (env.beta * env.sqrt (env.g * h))

/-- Per-bin form of `_nondim_k_omega`, used where the mask builders
consume one spectral bin at a time. -/
def nondimScalar {α : Type} [LinearOrderedField α] (env : PhysEnv α) (k f h : α) : α × α :=
  (nondimK env k h, nondimOmega env f h)

/-- `_nondim_k_omega(wavenumber, frequency, h)` from `util.py`
(lines 103-133) on whole arrays.  The source calls `_wrap_to_xarray`
without binding its result (line 120); we keep that discarded call, so
the outputs are computed from the arguments exactly as passed. -/
def _nondim_k_omega {α : Type} [LinearOrderedField α] (env : PhysEnv α)
    (wavenumber frequency : XVal α) (h : α) : XVal α × XVal α :=
  let _wrapped := _wrap_to_xarray wavenumber frequency
  (wavenumber.map (fun w => nondimK env w h),
   frequency.map (fun f => nondimOmega env f h))

/-- `functools.reduce` of `logical_and` over a list of boolean fields,
read at one bin: the conjunction of the list, seeded by its head. -/
def reduceAnd : List Prop → Prop
  | [] => True
  | p :: ps => ps.foldl And p

/-- `_combine_plus_minus(logical_plus, logical_minus)` from `util.py`
(lines 80-101), read at one bin: AND of the plus list OR AND of the
minus list. -/
def _combine_plus_minus (logical_plus logical_minus : List Prop) : Prop :=
  reduceAnd logical_plus ∨ reduceAnd logical_minus

/-- The `if fmin is not None` block of `kf_mask` (`util.py` lines
187-190): assert `fmin > 0`, then append `frequency > fmin` to the
plus list and `frequency < -fmin` to the minus list. -/
def kfFminBlock {α : Type} [LinearOrderedField α] (f : α) (fmin : Option α)
    (pm : List Prop × List Prop) : Except String (List Prop × List Prop) :=
  match fmin with
  | some fm =>
      if fm > 0 then Except.ok (pm.1 ++ [f > fm], pm.2 ++ [f < -fm])
      else Except.error "Frequency \"fmin\" must be greater than 0."
  | none => Except.ok pm

/-- The `if fmax is not None` block of `kf_mask` (`util.py` lines
192-195). -/
def kfFmaxBlock {α : Type} [LinearOrderedField α] (f : α) (fmax : Option α)
    (pm : List Prop × List Prop) : Except String (List Prop × List Prop) :=
  match fmax with
  | some fM =>
      if fM > 0 then Except.ok (pm.1 ++ [f < fM], pm.2 ++ [f > -fM])
      else Except.error "Frequency \"fmax\" must be greater than 0."
  | none => Except.ok pm

/-- The `if kmin is not None` block of `kf_mask` (`util.py` lines
197-199); no assert. -/
def kfKminBlock {α : Type} [LinearOrderedField α] (k : α) (kmin : Option α)
    (pm : List Prop × List Prop) : List Prop × List Prop :=
  match kmin with
  | some km => (pm.1 ++ [k > km], pm.2 ++ [k < -km])
  | none => pm

/-- The `if kmax is not None` block of `kf_mask` (`util.py` lines
201-203); no assert. -/
def kfKmaxBlock {α : Type} [LinearOrderedField α] (k : α) (kmax : Option α)
    (pm : List Prop × List Prop) : List Prop × List Prop :=
  match kmax with
  | some kM => (pm.1 ++ [k < kM], pm.2 ++ [k > -kM])
  | none => pm

/-- The `assert fmin < fmax` check of `kf_mask` (`util.py` lines
206-207), run when both are supplied. -/
def kfFreqOrderCheck {α : Type} [LinearOrderedField α]
    (fmin fmax : Option α) : Except String Unit :=
  match fmin, fmax with
  | some fm, some fM =>
      if fm < fM then Except.ok ()
      else Except.error "\"fmin\" should be smaller than \"fmax\"."
  | _, _ => Except.ok ()

/-- The `assert kmin < kmax` check of `kf_mask` (`util.py` lines
209-210), run when both are supplied. -/
def kfWaveOrderCheck {α : Type} [LinearOrderedField α]
    (kmin kmax : Option α) : Except String Unit :=
  match kmin, kmax with
  | some km, some kM =>
      if km < kM then Except.ok ()
      else Except.error "Wavenumber \"kmin\" should be smaller than \"kmax\"."
  | _, _ => Except.ok ()

/-- `kf_mask` from `util.py` (lines 148-216), read at one spectral bin
(wavenumber `k`, frequency `f`), on the `return_individual=True` path:
starting from `logical_plus = [frequency > 0]` and
`logical_minus = [frequency < 0]`, the four optional-bound blocks and
the two ordering asserts run in source order; the result is the pair
of branch predicate lists. -/
def kf_mask {α : Type} [LinearOrderedField α] (k f : α)
    (fmin fmax kmin kmax : Option α) : Except String (List Prop × List Prop) :=
  (kfFminBlock f fmin ([f > 0], [f < 0])).bind fun pm =>
  (kfFmaxBlock f fmax pm).bind fun pm =>
  let pm := kfKminBlock k kmin pm
  let pm := kfKmaxBlock k kmax pm
  (kfFreqOrderCheck fmin fmax).bind fun _ =>
  (kfWaveOrderCheck kmin kmax).bind fun _ =>
  Except.ok pm

/-- `kf_mask` on the default `return_individual=False` path: the two
branch lists combined by `_combine_plus_minus`. -/
def kf_mask_combined {α : Type} [LinearOrderedField α] (k f : α)
    (fmin fmax kmin kmax : Option α) : Except String Prop :=
  (kf_mask k f fmin fmax kmin kmax).map (fun pm => _combine_plus_minus pm.1 pm.2)

/-- First-error choice between two optional error messages. -/
def orO : Option String → Option String → Option String
  | some e, _ => some e
  | none, o => o

/-- Outcome of one positivity assert: `none` when it passes. -/
def posCheck {α : Type} [LinearOrderedField α] (msg : String) : Option α → Option String
  | some v => if v > 0 then none else some msg
  | none => none

/-- Outcome of one ordering assert: `none` when it passes. -/
def ordCheck {α : Type} [LinearOrderedField α] (msg : String) :
    Option α → Option α → Option String
  | some a, some b => if a < b then none else some msg
  | _, _ => none

/-- The first assert of `kf_mask` to fail, in source execution order
(fmin positivity, fmax positivity, frequency ordering, wavenumber
ordering), together with its message; `none` when every assert
passes. -/
def kfCheckOutcome {α : Type} [LinearOrderedField α]
    (fmin fmax kmin kmax : Option α) : Option String :=
  orO (posCheck "Frequency \"fmin\" must be greater than 0." fmin)
    (orO (posCheck "Frequency \"fmax\" must be greater than 0." fmax)
      (orO (ordCheck "\"fmin\" should be smaller than \"fmax\"." fmin fmax)
        (ordCheck "Wavenumber \"kmin\" should be smaller than \"kmax\"." kmin kmax)))

/-- A bound-dependent condition: trivially true when the optional
bound is absent, the given predicate at the bound when supplied. -/
def optHolds {α : Type} (o : Option α) (p : α → Prop) : Prop :=
  match o with
  | none => True
  | some v => p v

/-- Ordering of two optional bounds, required only when both are
supplied. -/
def optLT {α : Type} [LT α] : Option α → Option α → Prop
  | some a, some b => a < b
  | _, _ => True

/-- The argument constraints of `kf_mask`: supplied frequency bounds
positive, supplied bound pairs ordered. -/
def kfValid {α : Type} [LinearOrderedField α] (fmin fmax kmin kmax : Option α) : Prop :=
  optHolds fmin (fun v => 0 < v) ∧ optHolds fmax (fun v => 0 < v) ∧
    optLT fmin fmax ∧ optLT kmin kmax

/-- The predicates contributed by one optional bound: none when the
bound is absent. -/
def optList {α : Type} (o : Option α) (fn : α → List Prop) : List Prop :=
  match o with
  | none => []
  | some v => fn v

/-- The plus-branch predicate list `kf_mask` builds when its asserts
pass. -/
def kfPlusList {α : Type} [LinearOrderedField α] (k f : α)
    (fmin fmax kmin kmax : Option α) : List Prop :=
  [f > 0] ++ optList fmin (fun v => [f > v]) ++ optList fmax (fun v => [f < v])
    ++ optList kmin (fun v => [k > v]) ++ optList kmax (fun v => [k < v])

/-- The minus-branch predicate list `kf_mask` builds when its asserts
pass. -/
def kfMinusList {α : Type} [LinearOrderedField α] (k f : α)
    (fmin fmax kmin kmax : Option α) : List Prop :=
  [f < 0] ++ optList fmin (fun v => [f < -v]) ++ optList fmax (fun v => [f > -v])
    ++ optList kmin (fun v => [k < -v]) ++ optList kmax (fun v => [k > -v])

/-- Modelled from the spec: `wave_types` is supplied by
`kf_filter.consts` (not among the sources); the spec fixes the
recognized set as kelvin, er, ig, eig, mrg. -/
def wave_types : List String := ["kelvin", "er", "ig", "eig", "mrg"]

/-- The `operator.gt` comparator passed to a dispersion function. -/
def opGt {α : Type} [LinearOrderedField α] (a b : α) : Prop := a > b

/-- The `operator.lt` comparator passed to a dispersion function. -/
def opLt {α : Type} [LinearOrderedField α] (a b : α) : Prop := a < b

/-- The `if wave_type not in wave_types: raise ValueError(...)` check
of `wave_mask` (`util.py` lines 247-248). -/
def waveTypeCheck (wave_type : String) : Except String Unit :=
  if wave_type ∈ wave_types then Except.ok ()
  else Except.error ("Unsupported wave_type \"" ++ wave_type ++ "\".")

/-- The `if hmin is not None` block of `wave_mask` (`util.py` lines
253-262): non-dimensionalize at `h = hmin`, append the dispersion
predicate with `operator.gt` to the plus list, and with `operator.gt`
(for ig, eig, mrg) or `operator.lt` (otherwise) to the minus list.
`wf` is the abstract `wave_func` registry. -/
def waveHminBlock {α : Type} [LinearOrderedField α] (env : PhysEnv α)
    (wf : String → (α → α → Prop) → α → α → ℕ → Prop)
    (wave_type : String) (k f : α) (hmin : Option α) (n : ℕ)
    (pm : List Prop × List Prop) : List Prop × List Prop :=
  match hmin with
  | some h1 =>
      let ko := nondimScalar env k f h1
      (pm.1 ++ [wf wave_type opGt ko.2 ko.1 n],
       if wave_type ∈ ["ig", "eig", "mrg"] then
         pm.2 ++ [wf wave_type opGt ko.2 ko.1 n]
       else
         pm.2 ++ [wf wave_type opLt ko.2 ko.1 n])
  | none => pm

/-- The `if hmax is not None` block of `wave_mask` (`util.py` lines
264-272): non-dimensionalize at `h = hmax`, append the dispersion
predicate with `operator.lt` to the plus list, and with `operator.lt`
(for ig, eig, mrg) or `operator.gt` (otherwise) to the minus list. -/
def waveHmaxBlock {α : Type} [LinearOrderedField α] (env : PhysEnv α)
    (wf : String → (α → α → Prop) → α → α → ℕ → Prop)
    (wave_type : String) (k f : α) (hmax : Option α) (n : ℕ)
    (pm : List Prop × List Prop) : List Prop × List Prop :=
  match hmax with
  | some h2 =>
      let ko := nondimScalar env k f h2
      (pm.1 ++ [wf wave_type opLt ko.2 ko.1 n],
       if wave_type ∈ ["ig", "eig", "mrg"] then
         pm.2 ++ [wf wave_type opLt ko.2 ko.1 n]
       else
         pm.2 ++ [wf wave_type opGt ko.2 ko.1 n])
  | none => pm

/-- `wave_mask` from `util.py` (lines 218-274), read at one spectral
bin: the box mask (whose asserts may fail first), then the wave-type
check, then the `hmin` and `hmax` dispersion blocks, then the
combination.  The `wave_func` registry of `kf_filter.consts` is passed
in abstractly as `wf`. -/
def wave_mask {α : Type} [LinearOrderedField α] (env : PhysEnv α)
    (wf : String → (α → α → Prop) → α → α → ℕ → Prop)
    (k f : α) (wave_type : String)
    (fmin fmax kmin kmax hmin hmax : Option α) (n : ℕ) : Except String Prop :=
  (kf_mask k f fmin fmax kmin kmax).bind fun pm =>
  (waveTypeCheck wave_type).bind fun _ =>
  let pm := waveHminBlock env wf wave_type k f hmin n pm
  let pm := waveHmaxBlock env wf wave_type k f hmax n pm
  Except.ok (_combine_plus_minus pm.1 pm.2)

/-- The dispersion predicate contributed by one optional equivalent
depth, as the spec describes it: the wave-type function applied to a
comparator and the point non-dimensionalized at that depth. -/
def dispAppend {α : Type} [LinearOrderedField α] (env : PhysEnv α)
    (wf : String → (α → α → Prop) → α → α → ℕ → Prop)
    (wave_type : String) (op : α → α → Prop) (k f : α)
    (h : Option α) (n : ℕ) : List Prop :=
  match h with
  | some hv => [wf wave_type op (nondimOmega env f hv) (nondimK env k hv) n]
  | none => []

/-- `td_mask` from `util.py` (lines 276-313), read at one spectral
bin: the box mask lists with the two empirical linear boundaries
appended to each branch in source order, then combined. -/
def td_mask {α : Type} [LinearOrderedField α] (k f : α)
    (fmin fmax kmin kmax : Option α) : Except String Prop :=
  (kf_mask k f fmin fmax kmin kmax).bind fun pm =>
  let logical_plus := pm.1 ++ [84 * f + k - 22 < 0]
  let logical_minus := pm.2 ++ [84 * f + k + 22 > 0]
  let logical_plus := logical_plus ++ [210 * f + 5 / 2 * k - 13 > 0]
  let logical_minus := logical_minus ++ [210 * f + 5 / 2 * k + 13 < 0]
  Except.ok (_combine_plus_minus logical_plus logical_minus)

/-- `td_mask` with its default arguments
(`fmin=None, fmax=None, kmin=-20, kmax=-6`). -/
def td_mask_default {α : Type} [LinearOrderedField α] (k f : α) : Except String Prop :=
  td_mask k f none none (some (-20)) (some (-6))

/- ------------------------------------------------------------------
Shared lemmas.
------------------------------------------------------------------ -/

theorem kf_mask_eq {α : Type} [LinearOrderedField α] (k f : α)
    (fmin fmax kmin kmax : Option α) :
    kf_mask k f fmin fmax kmin kmax =
      match kfCheckOutcome fmin fmax kmin kmax with
      | some e => Except.error e
      | none =>
          Except.ok (kfPlusList k f fmin fmax kmin kmax,
                     kfMinusList k f fmin fmax kmin kmax) := by
  cases fmin <;> cases fmax <;> cases kmin <;> cases kmax <;>
    simp [kf_mask, kfCheckOutcome, orO, posCheck, ordCheck,
      kfPlusList, kfMinusList, optList,
      kfFminBlock, kfFmaxBlock, kfKminBlock, kfKmaxBlock, kfFreqOrderCheck,
      kfWaveOrderCheck, Except.bind] <;>
    (try split_ifs) <;>
    (try simp_all)

theorem kfCheckOutcome_none_iff {α : Type} [LinearOrderedField α]
    (fmin fmax kmin kmax : Option α) :
    kfCheckOutcome fmin fmax kmin kmax = none ↔ kfValid fmin fmax kmin kmax := by
  cases fmin <;> cases fmax <;> cases kmin <;> cases kmax <;>
    simp [kfCheckOutcome, orO, posCheck, ordCheck, kfValid, optHolds, optLT] <;>
    (try split_ifs) <;> (try simp_all)

theorem foldl_and_iff (l : List Prop) (p : Prop) :
    List.foldl And p l ↔ p ∧ ∀ q ∈ l, q := by
  induction l generalizing p with
  | nil => simp [List.foldl]
  | cons q t ih =>
      simp only [List.foldl, ih (p ∧ q), List.mem_cons]
      constructor
      · rintro ⟨⟨hp, hq⟩, ht⟩
        exact ⟨hp, fun r hr => hr.elim (fun h => h ▸ hq) (ht r)⟩
      · rintro ⟨hp, hall⟩
        exact ⟨⟨hp, hall q (Or.inl rfl)⟩, fun r hr => hall r (Or.inr hr)⟩

theorem reduceAnd_iff (l : List Prop) : reduceAnd l ↔ ∀ q ∈ l, q := by
  cases l with
  | nil => simp [reduceAnd]
  | cons p t =>
      simp only [reduceAnd, foldl_and_iff, List.mem_cons]
      constructor
      · rintro ⟨hp, ht⟩
        exact fun r hr => hr.elim (fun h => h ▸ hp) (ht r)
      · intro hall
        exact ⟨hall p (Or.inl rfl), fun r hr => hall r (Or.inr hr)⟩

theorem combine_iff (lp lm : List Prop) :
    _combine_plus_minus lp lm ↔ (∀ q ∈ lp, q) ∨ (∀ q ∈ lm, q) := by
  simp [_combine_plus_minus, reduceAnd_iff]

theorem forall_optList {α : Type} (o : Option α) (fn : α → List Prop) :
    (∀ q ∈ optList o fn, q) ↔ optHolds o (fun v => ∀ q ∈ fn v, q) := by
  cases o <;> simp [optList, optHolds]

theorem not_combine_cons (p q : Prop) (lp lm : List Prop) (hp : ¬p) (hq : ¬q) :
    ¬_combine_plus_minus (p :: lp) (q :: lm) := by
  rw [combine_iff]
  rintro (hall | hall)
  · exact hp (hall p (List.mem_cons_self p lp))
  · exact hq (hall q (List.mem_cons_self q lm))

theorem kfPlusList_eq_cons {α : Type} [LinearOrderedField α] (k f : α)
    (fmin fmax kmin kmax : Option α) :
    kfPlusList k f fmin fmax kmin kmax =
      (f > 0) :: (optList fmin (fun v => [f > v]) ++ optList fmax (fun v => [f < v])
        ++ optList kmin (fun v => [k > v]) ++ optList kmax (fun v => [k < v])) := by
  simp [kfPlusList]

theorem kfMinusList_eq_cons {α : Type} [LinearOrderedField α] (k f : α)
    (fmin fmax kmin kmax : Option α) :
    kfMinusList k f fmin fmax kmin kmax =
      (f < 0) :: (optList fmin (fun v => [f < -v]) ++ optList fmax (fun v => [f > -v])
        ++ optList kmin (fun v => [k < -v]) ++ optList kmax (fun v => [k > -v])) := by
  simp [kfMinusList]

theorem vals_map {β' : Type} (fn : β' → β') (x : XVal β') :
    (XVal.map fn x).vals = x.vals.map fn := by
  cases x <;> rfl

/- ------------------------------------------------------------------
Claims.
------------------------------------------------------------------ -/

/-- C1: whenever `kf_mask` produces a combined mask, its value at a
bin is True iff (frequency positive and every supplied plus-branch
predicate holds) or (frequency negative and every supplied
sign-mirrored minus-branch predicate holds). -/
theorem kf_mask_combined_spec {α : Type} [LinearOrderedField α] (k f : α)
    (fmin fmax kmin kmax : Option α) (m : Prop)
    (h : kf_mask_combined k f fmin fmax kmin kmax = Except.ok m) :
    m ↔ (f > 0 ∧ optHolds fmin (fun v => f > v) ∧ optHolds fmax (fun v => f < v) ∧
          optHolds kmin (fun v => k > v) ∧ optHolds kmax (fun v => k < v))
      ∨ (f < 0 ∧ optHolds fmin (fun v => f < -v) ∧ optHolds fmax (fun v => f > -v) ∧
          optHolds kmin (fun v => k < -v) ∧ optHolds kmax (fun v => k > -v)) := by
  rw [kf_mask_combined, kf_mask_eq] at h
  rcases ho : kfCheckOutcome fmin fmax kmin kmax with _ | e
  · rw [ho] at h
    simp only [Except.map] at h
    have hm : m = _combine_plus_minus (kfPlusList k f fmin fmax kmin kmax)
        (kfMinusList k f fmin fmax kmin kmax) := by
      cases h
      rfl
    subst hm
    rw [combine_iff]
    simp only [kfPlusList, kfMinusList, List.forall_mem_append, forall_optList,
      List.forall_mem_singleton]
    tauto
  · rw [ho] at h
    simp [Except.map] at h

theorem kf_mask_combined_spec_witness :
    kf_mask_combined (3 : ℚ) 2 (some 1) none none none =
        Except.ok (_combine_plus_minus [(2 : ℚ) > 0, (2 : ℚ) > 1]
          [(2 : ℚ) < 0, (2 : ℚ) < -1]) ∧
    (_combine_plus_minus [(2 : ℚ) > 0, (2 : ℚ) > 1]
          [(2 : ℚ) < 0, (2 : ℚ) < -1] ↔
      ((2 : ℚ) > 0 ∧ optHolds (some (1 : ℚ)) (fun v => (2 : ℚ) > v) ∧
        optHolds (none : Option ℚ) (fun v => (2 : ℚ) < v) ∧
        optHolds (none : Option ℚ) (fun v => (3 : ℚ) > v) ∧
        optHolds (none : Option ℚ) (fun v => (3 : ℚ) < v)) ∨
      ((2 : ℚ) < 0 ∧ optHolds (some (1 : ℚ)) (fun v => (2 : ℚ) < -v) ∧
        optHolds (none : Option ℚ) (fun v => (2 : ℚ) > -v) ∧
        optHolds (none : Option ℚ) (fun v => (3 : ℚ) < -v) ∧
        optHolds (none : Option ℚ) (fun v => (3 : ℚ) > -v))) :=
  ⟨rfl, kf_mask_combined_spec 3 2 (some 1) none none none _ rfl⟩

/-- C2: for a recognized wave type, `wave_mask` appends the dispersion
predicate with the greater-than comparator to the plus branch at
`h = hmin` and the less-than comparator at `h = hmax`; on the minus
branch the comparator direction matches the plus branch for ig, eig
and mrg, and is flipped for er and kelvin; the dispersion points come
from the non-dimensionalization at the respective depth, and the
result is AND(plus) OR AND(minus). -/
theorem wave_mask_structure {α : Type} [LinearOrderedField α] (env : PhysEnv α)
    (wf : String → (α → α → Prop) → α → α → ℕ → Prop)
    (k f : α) (wave_type : String)
    (fmin fmax kmin kmax hmin hmax : Option α) (n : ℕ)
    (pm : List Prop × List Prop)
    (hkf : kf_mask k f fmin fmax kmin kmax = Except.ok pm)
    (hwt : wave_type ∈ wave_types) :
    wave_mask env wf k f wave_type fmin fmax kmin kmax hmin hmax n =
      Except.ok (_combine_plus_minus
        (pm.1 ++ dispAppend env wf wave_type opGt k f hmin n
              ++ dispAppend env wf wave_type opLt k f hmax n)
        (pm.2 ++ dispAppend env wf wave_type
                  (if wave_type = "er" ∨ wave_type = "kelvin" then opLt else opGt)
                  k f hmin n
              ++ dispAppend env wf wave_type
                  (if wave_type = "er" ∨ wave_type = "kelvin" then opGt else opLt)
                  k f hmax n)) := by
  have hcheck : waveTypeCheck wave_type = Except.ok () := by
    rw [waveTypeCheck, if_pos hwt]
  simp only [wave_mask]
  rw [hkf]
  simp only [Except.bind, hcheck]
  simp only [wave_types, List.mem_cons, List.mem_singleton] at hwt
  rcases hwt with rfl | rfl | rfl | rfl | rfl | h0 <;>
    (try cases h0) <;>
    cases hmin <;> cases hmax <;>
      simp [waveHminBlock, waveHmaxBlock, dispAppend, nondimScalar, opGt, opLt]

theorem wave_mask_structure_witness :
    kf_mask (3 : ℚ) 2 none none none none =
        Except.ok ([(2 : ℚ) > 0], [(2 : ℚ) < 0]) ∧
    "er" ∈ wave_types ∧
    wave_mask (⟨1, 1, 1, 3, id⟩ : PhysEnv ℚ) (fun _ _ _ _ _ => True) 3 2 "er"
        none none none none (some 8) (some 90) 1 =
      Except.ok (_combine_plus_minus
        ([(2 : ℚ) > 0]
          ++ dispAppend (⟨1, 1, 1, 3, id⟩ : PhysEnv ℚ) (fun _ _ _ _ _ => True) "er"
               opGt 3 2 (some 8) 1
          ++ dispAppend (⟨1, 1, 1, 3, id⟩ : PhysEnv ℚ) (fun _ _ _ _ _ => True) "er"
               opLt 3 2 (some 90) 1)
        ([(2 : ℚ) < 0]
          ++ dispAppend (⟨1, 1, 1, 3, id⟩ : PhysEnv ℚ) (fun _ _ _ _ _ => True) "er"
               (if "er" = "er" ∨ "er" = "kelvin" then opLt else opGt) 3 2
               (some 8) 1
          ++ dispAppend (⟨1, 1, 1, 3, id⟩ : PhysEnv ℚ) (fun _ _ _ _ _ => True) "er"
               (if "er" = "er" ∨ "er" = "kelvin" then opGt else opLt) 3 2
               (some 90) 1)) :=
  ⟨rfl, by decide,
   wave_mask_structure (⟨1, 1, 1, 3, id⟩ : PhysEnv ℚ) (fun _ _ _ _ _ => True)
     3 2 "er" none none none none (some 8) (some 90) 1
     ([(2 : ℚ) > 0], [(2 : ℚ) < 0]) rfl (by decide)⟩

/-- C3: the combined `kf_mask` output is symmetric under a
simultaneous sign flip of both axes: the value at bin (k, f) equals
the value at bin (-k, -f), for every bound combination (an assert
failure yields the same error on both sides). -/
theorem kf_mask_combined_symm {α : Type} [LinearOrderedField α] (k f : α)
    (fmin fmax kmin kmax : Option α) :
    kf_mask_combined k f fmin fmax kmin kmax =
      kf_mask_combined (-k) (-f) fmin fmax kmin kmax := by
  rw [kf_mask_combined, kf_mask_combined, kf_mask_eq, kf_mask_eq]
  rcases ho : kfCheckOutcome fmin fmax kmin kmax with _ | e
  · simp only [Except.map]
    congr 1
    apply propext
    rw [combine_iff, combine_iff]
    simp only [kfPlusList, kfMinusList, List.forall_mem_append, forall_optList]
    simp only [List.mem_singleton, forall_eq]
    constructor <;>
      (rintro (h' | h') <;> [right; left] <;>
        simp_all [optHolds, neg_pos, lt_neg, neg_lt, neg_neg])
  · simp [Except.map]

/-- C4: `kf_mask` fails with the assert message naming the offending
parameter and constraint whenever a supplied fmin or fmax is not
positive or a supplied bound pair is out of order (earlier asserts in
source order taking precedence), and succeeds whenever all supplied
bounds satisfy the constraints. -/
theorem kf_mask_validation {α : Type} [LinearOrderedField α] (k f : α)
    (fmin fmax kmin kmax : Option α) :
    (¬kfValid fmin fmax kmin kmax →
        ∃ e, kf_mask_combined k f fmin fmax kmin kmax = Except.error e) ∧
    (∀ fm, fmin = some fm → ¬fm > 0 →
        kf_mask_combined k f fmin fmax kmin kmax =
          Except.error "Frequency \"fmin\" must be greater than 0.") ∧
    (optHolds fmin (fun v => 0 < v) → ∀ fM, fmax = some fM → ¬fM > 0 →
        kf_mask_combined k f fmin fmax kmin kmax =
          Except.error "Frequency \"fmax\" must be greater than 0.") ∧
    (optHolds fmin (fun v => 0 < v) → optHolds fmax (fun v => 0 < v) →
      ∀ fm fM, fmin = some fm → fmax = some fM → ¬fm < fM →
        kf_mask_combined k f fmin fmax kmin kmax =
          Except.error "\"fmin\" should be smaller than \"fmax\".") ∧
    (optHolds fmin (fun v => 0 < v) → optHolds fmax (fun v => 0 < v) →
      optLT fmin fmax →
      ∀ km kM, kmin = some km → kmax = some kM → ¬km < kM →
        kf_mask_combined k f fmin fmax kmin kmax =
          Except.error "Wavenumber \"kmin\" should be smaller than \"kmax\".") ∧
    (kfValid fmin fmax kmin kmax →
        ∃ m, kf_mask_combined k f fmin fmax kmin kmax = Except.ok m) := by
  refine ⟨?_, ?_, ?_, ?_, ?_, ?_⟩
  · intro hbad
    rcases ho : kfCheckOutcome fmin fmax kmin kmax with _ | e
    · exact absurd ((kfCheckOutcome_none_iff fmin fmax kmin kmax).mp ho) hbad
    · exact ⟨e, by rw [kf_mask_combined, kf_mask_eq, ho]; rfl⟩
  · intro fm hfm hneg
    subst hfm
    rw [kf_mask_combined, kf_mask_eq]
    simp [kfCheckOutcome, posCheck, orO, if_neg hneg, Except.map]
  · intro hfmin fM hfM hneg
    subst hfM
    rw [kf_mask_combined, kf_mask_eq]
    cases fmin with
    | none =>
        simp [kfCheckOutcome, posCheck, orO, if_neg hneg, Except.map]
    | some fm =>
        have hpos : fm > 0 := hfmin
        simp [kfCheckOutcome, posCheck, orO, if_pos hpos, if_neg hneg, Except.map]
  · intro hfmin hfmax fm fM hfm hfM hneg
    subst hfm
    subst hfM
    have h1 : fm > 0 := hfmin
    have h2 : fM > 0 := hfmax
    rw [kf_mask_combined, kf_mask_eq]
    simp [kfCheckOutcome, posCheck, ordCheck, orO, if_pos h1, if_pos h2,
      if_neg hneg, Except.map]
  · intro hfmin hfmax hord km kM hkm hkM hneg
    subst hkm
    subst hkM
    rw [kf_mask_combined, kf_mask_eq]
    cases fmin with
    | none =>
        cases fmax with
        | none =>
            simp [kfCheckOutcome, posCheck, ordCheck, orO, if_neg hneg, Except.map]
        | some fM =>
            have h2 : fM > 0 := hfmax
            simp [kfCheckOutcome, posCheck, ordCheck, orO, if_pos h2, if_neg hneg,
              Except.map]
    | some fm =>
        have h1 : fm > 0 := hfmin
        cases fmax with
        | none =>
            simp [kfCheckOutcome, posCheck, ordCheck, orO, if_pos h1, if_neg hneg,
              Except.map]
        | some fM =>
            have h2 : fM > 0 := hfmax
            have h3 : fm < fM := hord
            simp [kfCheckOutcome, posCheck, ordCheck, orO, if_pos h1, if_pos h2,
              if_pos h3, if_neg hneg, Except.map]
  · intro hval
    have ho : kfCheckOutcome fmin fmax kmin kmax = none :=
      (kfCheckOutcome_none_iff fmin fmax kmin kmax).mpr hval
    refine ⟨_combine_plus_minus (kfPlusList k f fmin fmax kmin kmax)
      (kfMinusList k f fmin fmax kmin kmax), ?_⟩
    rw [kf_mask_combined, kf_mask_eq, ho]
    rfl

theorem kf_mask_validation_witness :
    (kf_mask_combined (0 : ℚ) 0 (some (-1)) none none none =
        Except.error "Frequency \"fmin\" must be greater than 0.") ∧
    (∃ m, kf_mask_combined (0 : ℚ) 0 (some 1) (some 2) none none =
        Except.ok m) :=
  ⟨(kf_mask_validation (0 : ℚ) 0 (some (-1)) none none none).2.1 (-1) rfl (by decide),
   (kf_mask_validation (0 : ℚ) 0 (some 1) (some 2) none none).2.2.2.2.2
     ⟨(by decide : (0 : ℚ) < 1), (by decide : (0 : ℚ) < 2),
      (by decide : (1 : ℚ) < 2), trivial⟩⟩

/-- C5: `td_mask` appends exactly the two empirical boundary
predicates to each branch list (sign-mirrored on the minus branch) and
returns AND(plus) OR AND(minus); its defaults are kmin = -20 and
kmax = -6 with fmin and fmax absent. -/
theorem td_mask_spec {α : Type} [LinearOrderedField α] (k f : α)
    (fmin fmax kmin kmax : Option α) (pm : List Prop × List Prop)
    (hkf : kf_mask k f fmin fmax kmin kmax = Except.ok pm) :
    td_mask k f fmin fmax kmin kmax =
      Except.ok (_combine_plus_minus
        (pm.1 ++ [84 * f + k - 22 < 0, 210 * f + 5 / 2 * k - 13 > 0])
        (pm.2 ++ [84 * f + k + 22 > 0, 210 * f + 5 / 2 * k + 13 < 0])) ∧
    td_mask_default k f = td_mask k f none none (some (-20)) (some (-6)) := by
  constructor
  · simp only [td_mask]
    rw [hkf]
    simp [Except.bind, List.append_assoc]
  · rfl

theorem td_mask_spec_witness :
    kf_mask (3 : ℚ) 2 none none none none =
        Except.ok ([(2 : ℚ) > 0], [(2 : ℚ) < 0]) ∧
    (td_mask (3 : ℚ) 2 none none none none =
      Except.ok (_combine_plus_minus
        ([(2 : ℚ) > 0] ++
          [84 * (2 : ℚ) + 3 - 22 < 0, 210 * (2 : ℚ) + 5 / 2 * 3 - 13 > 0])
        ([(2 : ℚ) < 0] ++
          [84 * (2 : ℚ) + 3 + 22 > 0, 210 * (2 : ℚ) + 5 / 2 * 3 + 13 < 0])) ∧
      td_mask_default (3 : ℚ) 2 =
        td_mask (3 : ℚ) 2 none none (some (-20)) (some (-6))) :=
  ⟨rfl, td_mask_spec (3 : ℚ) 2 none none none none
    ([(2 : ℚ) > 0], [(2 : ℚ) < 0]) rfl⟩

/-- C6: when the box-mask stage succeeds, `wave_mask` fails with the
invalid-argument error naming the bad wave type for every
unrecognized wave type, and produces a mask (raising no error) for
every recognized one. -/
theorem wave_mask_type_check {α : Type} [LinearOrderedField α] (env : PhysEnv α)
    (wf : String → (α → α → Prop) → α → α → ℕ → Prop)
    (k f : α) (wave_type : String)
    (fmin fmax kmin kmax hmin hmax : Option α) (n : ℕ)
    (pm : List Prop × List Prop)
    (hkf : kf_mask k f fmin fmax kmin kmax = Except.ok pm) :
    (wave_type ∉ wave_types →
        wave_mask env wf k f wave_type fmin fmax kmin kmax hmin hmax n =
          Except.error ("Unsupported wave_type \"" ++ wave_type ++ "\".")) ∧
    (wave_type ∈ wave_types →
        ∃ m, wave_mask env wf k f wave_type fmin fmax kmin kmax hmin hmax n =
          Except.ok m) := by
  constructor
  · intro hbad
    have hcheck : waveTypeCheck wave_type =
        Except.error ("Unsupported wave_type \"" ++ wave_type ++ "\".") := by
      rw [waveTypeCheck, if_neg hbad]
    simp only [wave_mask]
    rw [hkf]
    simp only [Except.bind, hcheck]
  · intro hgood
    have hcheck : waveTypeCheck wave_type = Except.ok () := by
      rw [waveTypeCheck, if_pos hgood]
    refine ⟨_combine_plus_minus
        (waveHmaxBlock env wf wave_type k f hmax n
          (waveHminBlock env wf wave_type k f hmin n pm)).1
        (waveHmaxBlock env wf wave_type k f hmax n
          (waveHminBlock env wf wave_type k f hmin n pm)).2, ?_⟩
    simp only [wave_mask]
    rw [hkf]
    simp only [Except.bind, hcheck]

theorem wave_mask_type_check_witness :
    (wave_mask (⟨1, 1, 1, 3, id⟩ : PhysEnv ℚ) (fun _ _ _ _ _ => True) 3 2
        "bogus" none none none none none none 1 =
      Except.error "Unsupported wave_type \"bogus\".") ∧
    (∃ m, wave_mask (⟨1, 1, 1, 3, id⟩ : PhysEnv ℚ) (fun _ _ _ _ _ => True) 3 2
        "mrg" none none none none none none 1 = Except.ok m) :=
  ⟨(wave_mask_type_check (⟨1, 1, 1, 3, id⟩ : PhysEnv ℚ) (fun _ _ _ _ _ => True)
      3 2 "bogus" none none none none none none 1
      ([(2 : ℚ) > 0], [(2 : ℚ) < 0]) rfl).1 (by decide),
   (wave_mask_type_check (⟨1, 1, 1, 3, id⟩ : PhysEnv ℚ) (fun _ _ _ _ _ => True)
      3 2 "mrg" none none none none none none 1
      ([(2 : ℚ) > 0], [(2 : ℚ) < 0]) rfl).2 (by decide)⟩

/-- C7: over the reals with the constants supplied by the surrounding
module, the non-dimensionalizer returns elementwise
k = wavenumber / radius_earth * sqrt(c / beta) and
omega = frequency * 2 pi / 86400 / sqrt(beta * c), with
c = sqrt(g * h). -/
theorem nondim_formulas (g R β : ℝ) (w f : XVal ℝ) (h : ℝ) (_hp : 0 < h) :
    (_nondim_k_omega (⟨g, R, β, Real.pi, Real.sqrt⟩ : PhysEnv ℝ) w f h).1.vals =
        w.vals.map (fun x => x / R * Real.sqrt (Real.sqrt (g * h) / β)) ∧
    (_nondim_k_omega (⟨g, R, β, Real.pi, Real.sqrt⟩ : PhysEnv ℝ) w f h).2.vals =
        f.vals.map
          (fun x => x * (2 * Real.pi) / 86400 / Real.sqrt (β * Real.sqrt (g * h))) := by
  constructor
  · cases w <;> rfl
  · have hfn : ∀ x : ℝ,
        nondimOmega (⟨g, R, β, Real.pi, Real.sqrt⟩ : PhysEnv ℝ) x h =
          x * (2 * Real.pi) / 86400 / Real.sqrt (β * Real.sqrt (g * h)) := by
      intro x
      simp only [nondimOmega]
      norm_num [mul_assoc]
    cases f <;> simp [_nondim_k_omega, XVal.map, XVal.vals, hfn]

theorem nondim_formulas_witness :
    (0 : ℝ) < 1 ∧
    ((_nondim_k_omega (⟨10, 2, 3, Real.pi, Real.sqrt⟩ : PhysEnv ℝ)
        (XVal.raw [5]) (XVal.raw [7]) 1).1.vals =
      (XVal.raw [(5 : ℝ)]).vals.map
        (fun x => x / 2 * Real.sqrt (Real.sqrt (10 * 1) / 3)) ∧
     (_nondim_k_omega (⟨10, 2, 3, Real.pi, Real.sqrt⟩ : PhysEnv ℝ)
        (XVal.raw [5]) (XVal.raw [7]) 1).2.vals =
      (XVal.raw [(7 : ℝ)]).vals.map
        (fun x => x * (2 * Real.pi) / 86400 / Real.sqrt (3 * Real.sqrt (10 * 1)))) :=
  ⟨zero_lt_one, nondim_formulas 10 2 3 (XVal.raw [5]) (XVal.raw [7]) 1 zero_lt_one⟩

/-- C8: the coordinate normalizer promotes a raw array to a labeled
array indexed by its own values, returns a labeled array unchanged,
and applying it twice equals applying it once. -/
theorem wrap_idempotent {β' : Type} :
    (∀ v : List β', wrapOne (XVal.raw v) = XVal.dataArray v v) ∧
    (∀ x : XVal β', x.isLabeled = true → wrapOne x = x) ∧
    (∀ w f : XVal β',
      _wrap_to_xarray (_wrap_to_xarray w f).1 (_wrap_to_xarray w f).2 =
        _wrap_to_xarray w f) := by
  refine ⟨fun v => rfl, ?_, ?_⟩
  · intro x hx
    cases x with
    | raw v => simp [XVal.isLabeled] at hx
    | dataArray c v => rfl
  · intro w f
    cases w <;> cases f <;> rfl

theorem wrap_idempotent_witness :
    (XVal.dataArray [1] [2] : XVal ℕ).isLabeled = true ∧
    wrapOne (XVal.dataArray [1] [2] : XVal ℕ) = XVal.dataArray [1] [2] :=
  ⟨rfl, wrap_idempotent.2.1 (XVal.dataArray [1] [2]) rfl⟩

/-- C9 counterexample: for a labeled (DataArray) input the
non-dimensionalizer output carries coordinate labels, contradicting
the claim that the output is unlabeled for every input; the source
discards the result of its `_wrap_to_xarray` call and xarray
arithmetic preserves labels. -/
theorem nondim_unlabeled_counterexample :
    ((_nondim_k_omega (⟨10, 2, 3, Real.pi, Real.sqrt⟩ : PhysEnv ℝ)
        (XVal.dataArray [3] [3]) (XVal.dataArray [5] [5]) 8).1).isLabeled = true :=
  rfl

/-- C9 amended: the non-dimensionalizer output pair has the same shape
as the inputs, and its labeling follows the inputs: raw inputs give
unlabeled outputs and labeled inputs give labeled outputs. -/
theorem nondim_shape_and_labels {α : Type} [LinearOrderedField α] (env : PhysEnv α)
    (w f : XVal α) (h : α) (_hp : 0 < h) :
    ((_nondim_k_omega env w f h).1).vals.length = w.vals.length ∧
    ((_nondim_k_omega env w f h).2).vals.length = f.vals.length ∧
    ((_nondim_k_omega env w f h).1).isLabeled = w.isLabeled ∧
    ((_nondim_k_omega env w f h).2).isLabeled = f.isLabeled := by
  cases w <;> cases f <;>
    simp [_nondim_k_omega, XVal.map, XVal.vals, XVal.isLabeled]

theorem nondim_shape_and_labels_witness :
    (0 : ℚ) < 1 ∧
    (((_nondim_k_omega (⟨1, 1, 1, 3, id⟩ : PhysEnv ℚ)
        (XVal.raw [5]) (XVal.raw [7, 9]) 1).1).vals.length =
          (XVal.raw [(5 : ℚ)]).vals.length ∧
     ((_nondim_k_omega (⟨1, 1, 1, 3, id⟩ : PhysEnv ℚ)
        (XVal.raw [5]) (XVal.raw [7, 9]) 1).2).vals.length =
          (XVal.raw [(7 : ℚ), 9]).vals.length ∧
     ((_nondim_k_omega (⟨1, 1, 1, 3, id⟩ : PhysEnv ℚ)
        (XVal.raw [5]) (XVal.raw [7, 9]) 1).1).isLabeled =
          (XVal.raw [(5 : ℚ)]).isLabeled ∧
     ((_nondim_k_omega (⟨1, 1, 1, 3, id⟩ : PhysEnv ℚ)
        (XVal.raw [5]) (XVal.raw [7, 9]) 1).2).isLabeled =
          (XVal.raw [(7 : ℚ), 9]).isLabeled) :=
  ⟨zero_lt_one, nondim_shape_and_labels (⟨1, 1, 1, 3, id⟩ : PhysEnv ℚ)
    (XVal.raw [5]) (XVal.raw [7, 9]) 1 zero_lt_one⟩

/-- C10: every mask any of the three builders produces is False at a
bin whose frequency is exactly 0, because both branch lists start with
the strict comparisons frequency greater than 0 and frequency less
than 0. -/
theorem zero_frequency_unselected {α : Type} [LinearOrderedField α]
    (env : PhysEnv α) (wf : String → (α → α → Prop) → α → α → ℕ → Prop)
    (k : α) (wave_type : String)
    (fmin fmax kmin kmax hmin hmax : Option α) (n : ℕ) (m : Prop) :
    (kf_mask_combined k 0 fmin fmax kmin kmax = Except.ok m → ¬m) ∧
    (wave_mask env wf k 0 wave_type fmin fmax kmin kmax hmin hmax n =
        Except.ok m → ¬m) ∧
    (td_mask k 0 fmin fmax kmin kmax = Except.ok m → ¬m) := by
  refine ⟨?_, ?_, ?_⟩
  · intro h
    rw [kf_mask_combined, kf_mask_eq] at h
    rcases ho : kfCheckOutcome fmin fmax kmin kmax with _ | e <;> rw [ho] at h
    · simp only [Except.map] at h
      cases h
      simp only [kfPlusList_eq_cons, kfMinusList_eq_cons]
      exact not_combine_cons _ _ _ _ (lt_irrefl 0) (lt_irrefl 0)
    · simp [Except.map] at h
  · intro h
    simp only [wave_mask] at h
    rw [kf_mask_eq] at h
    rcases ho : kfCheckOutcome fmin fmax kmin kmax with _ | e <;> rw [ho] at h
    · simp only [Except.bind] at h
      rcases hw : waveTypeCheck wave_type with e | u <;> rw [hw] at h
      · simp [Except.bind] at h
      · simp only [Except.bind] at h
        cases h
        by_cases hc : wave_type ∈ ["ig", "eig", "mrg"] <;>
          cases hmin <;> cases hmax <;>
            simp only [waveHminBlock, waveHmaxBlock, hc, if_true, if_false,
              ite_true, ite_false, kfPlusList_eq_cons, kfMinusList_eq_cons,
              List.cons_append] <;>
            exact not_combine_cons _ _ _ _ (lt_irrefl 0) (lt_irrefl 0)
    · simp [Except.bind] at h
  · intro h
    simp only [td_mask] at h
    rw [kf_mask_eq] at h
    rcases ho : kfCheckOutcome fmin fmax kmin kmax with _ | e <;> rw [ho] at h
    · simp only [Except.bind] at h
      cases h
      simp only [kfPlusList_eq_cons, kfMinusList_eq_cons, List.cons_append]
      exact not_combine_cons _ _ _ _ (lt_irrefl 0) (lt_irrefl 0)
    · simp [Except.bind] at h

theorem zero_frequency_unselected_witness :
    (¬_combine_plus_minus [(0 : ℚ) > 0] [(0 : ℚ) < 0]) ∧
    (¬_combine_plus_minus [(0 : ℚ) > 0, (0 : ℚ) > 1]
        [(0 : ℚ) < 0, (0 : ℚ) < -1]) ∧
    (¬_combine_plus_minus
        [(0 : ℚ) > 0, 84 * (0 : ℚ) + 3 - 22 < 0, 210 * (0 : ℚ) + 5 / 2 * 3 - 13 > 0]
        [(0 : ℚ) < 0, 84 * (0 : ℚ) + 3 + 22 > 0, 210 * (0 : ℚ) + 5 / 2 * 3 + 13 < 0]) :=
  ⟨(zero_frequency_unselected (⟨1, 1, 1, 3, id⟩ : PhysEnv ℚ) (fun _ _ _ _ _ => True)
      3 "kelvin" none none none none none none 1 _).1 rfl,
   (zero_frequency_unselected (⟨1, 1, 1, 3, id⟩ : PhysEnv ℚ) (fun _ _ _ _ _ => True)
      3 "kelvin" (some 1) none none none none none 1 _).2.1 rfl,
   (zero_frequency_unselected (⟨1, 1, 1, 3, id⟩ : PhysEnv ℚ) (fun _ _ _ _ _ => True)
      3 "kelvin" none none none none none none 1 _).2.2 rfl⟩

end KfFilter
